import Mathlib

/-
Verification development for the cli-radio-player repository
(`src/cmd/radio/main.go`).  The file `main.go` contains three concatenated
revisions of the program; the authoritative code is the latest revision of
each component: the `Player` of the middle revision (lines 291–676) and the
`StreamAnalyzer` of the final revision (lines 921–1485).

Shallow embedding conventions:
- Go `float64` values (download speed, buffer health, packet loss,
  connection stability, the quality score, the volume dB value) are
  modelled as exact rationals `ℚ`; the decimal constants 0.25, 0.8, 1.2,
  0.8, 0.6 of the source are the exact rationals 1/4, 8/10, 12/10, 8/10,
  6/10.
- Go `time.Duration` values (request round-trip times, jitter) are
  nanosecond counts.  Measured durations come from `time.Since` on the
  monotonic clock and are nonnegative, so they are modelled as `ℕ`;
  `time.Duration` division is integer division, which on nonnegative
  operands is `Nat` division.
- Go `int64` / `int` fields (bitrate, sample rate) are modelled as `ℤ`.
- Goroutines, locks and timers are abstracted into explicit state-passing:
  each exported operation is a function on an explicit state record, and
  interleavings are lists of actions folded over a step function.
-/

namespace RadioSpec

/-- StreamStats of the final revision (main.go lines 934–948): the value
snapshot of stream-quality metrics.  Timestamps (`lastUpdated`,
`startTime`) are abstract clock readings; `latency` and `jitter` are
nanosecond counts. -/
structure StreamStats where
  bitrate : ℤ
  sampleRate : ℤ
  codec : String
  downloadSpeed : ℚ
  bufferHealth : ℚ
  latency : ℤ
  networkQuality : String
  lastUpdated : ℤ
  packetLoss : ℚ
  jitter : ℤ
  connectionStability : ℚ
  totalBytes : ℤ
  startTime : ℤ
deriving Repr, DecidableEq

/-- Go zero value of `StreamStats`: numeric fields 0, strings empty. -/
def initialStreamStats : StreamStats :=
  { bitrate := 0, sampleRate := 0, codec := "", downloadSpeed := 0,
    bufferHealth := 0, latency := 0, networkQuality := "", lastUpdated := 0,
    packetLoss := 0, jitter := 0, connectionStability := 0, totalBytes := 0,
    startTime := 0 }

/-- Weighted quality score accumulated by `assessNetworkQuality`
(main.go lines 1374–1424).  The Go code starts from `score := 0.0` and adds
the five factors in order: speed-ratio factor, buffer-health factor,
`ConnectionStability * 0.25`, packet-loss factor, jitter factor.  The
packet-loss and jitter chains have no `else` branch, so they contribute 0
past their last threshold.  Jitter thresholds are 100ms, 500ms and 1s in
nanoseconds. -/
def assessScore (s : StreamStats) : ℚ :=
  let requiredSpeed : ℚ := (s.bitrate : ℚ) / 8
  let speedRat := s.downloadSpeed / requiredSpeed
  0
    + (if speedRat ≥ 12/10 then 40
       else if speedRat ≥ 1 then 35
       else if speedRat ≥ 8/10 then 25
       else if speedRat ≥ 6/10 then 15
       else 5)
    + (if s.bufferHealth > 80 then 20
       else if s.bufferHealth > 60 then 15
       else if s.bufferHealth > 40 then 10
       else 5)
    + s.connectionStability * (1/4)
    + (if s.packetLoss < 1 then 10
       else if s.packetLoss < 5 then 5
       else if s.packetLoss < 10 then 2
       else 0)
    + (if s.jitter < 100000000 then 5
       else if s.jitter < 500000000 then 3
       else if s.jitter < 1000000000 then 1
       else 0)

/-- StreamAnalyzer.assessNetworkQuality (main.go lines 1366–1438): returns
"Unknown" when bitrate or download speed is zero, otherwise maps the
weighted score through the label thresholds 90/75/60/40. -/
def assessNetworkQuality (s : StreamStats) : String :=
  if s.bitrate = 0 ∨ s.downloadSpeed = 0 then "Unknown"
  else if assessScore s ≥ 90 then "Excellent"
  else if assessScore s ≥ 75 then "Good"
  else if assessScore s ≥ 60 then "Fair"
  else if assessScore s ≥ 40 then "Poor"
  else "Very Poor"

/-- Written from the spec text of claim C5: the speed-ratio factor
(≥1.2→40, ≥1.0→35, ≥0.8→25, ≥0.6→15, else 5). -/
def specSpeedFactor (r : ℚ) : ℚ :=
  if r ≥ 12/10 then 40 else if r ≥ 1 then 35 else if r ≥ 8/10 then 25
  else if r ≥ 6/10 then 15 else 5

/-- Written from the spec text of claim C5: the buffer-health factor
(>80→20, >60→15, >40→10, else 5). -/
def specBufferFactor (bh : ℚ) : ℚ :=
  if bh > 80 then 20 else if bh > 60 then 15 else if bh > 40 then 10 else 5

/-- Written from the spec text of claim C5: the packet-loss factor
(<1→10, <5→5, <10→2, else 0). -/
def specPacketLossFactor (pl : ℚ) : ℚ :=
  if pl < 1 then 10 else if pl < 5 then 5 else if pl < 10 then 2 else 0

/-- Written from the spec text of claim C5: the jitter factor
(<100ms→5, <500ms→3, <1s→1, else 0), jitter in nanoseconds. -/
def specJitterFactor (j : ℤ) : ℚ :=
  if j < 100000000 then 5 else if j < 500000000 then 3
  else if j < 1000000000 then 1 else 0

/-- Written from the spec text of claim C5: the weighted total score, the
sum of the five factors with the speed ratio downloadSpeed / (bitrate/8)
and the stability contribution stability × 0.25. -/
def specScore (s : StreamStats) : ℚ :=
  specSpeedFactor (s.downloadSpeed / ((s.bitrate : ℚ) / 8))
    + specBufferFactor s.bufferHealth
    + s.connectionStability * (1/4)
    + specPacketLossFactor s.packetLoss
    + specJitterFactor s.jitter

/-- Written from the spec text of claim C5: label thresholds on the total
score (≥90 Excellent, ≥75 Good, ≥60 Fair, ≥40 Poor, else Very Poor),
preceded by the zero-data "Unknown" guard. -/
def specQualityLabel (s : StreamStats) : String :=
  if s.bitrate = 0 ∨ s.downloadSpeed = 0 then "Unknown"
  else if specScore s ≥ 90 then "Excellent"
  else if specScore s ≥ 75 then "Good"
  else if specScore s ≥ 60 then "Fair"
  else if specScore s ≥ 40 then "Poor"
  else "Very Poor"

/-- Player.ffplayArgs volume computation (main.go line 314):
`volDb := float64(p.volumePercent)/100*0 - 20*(1-float64(p.volumePercent)/100)`,
modelled over exact rationals. -/
def ffplayVolDb (percent : ℤ) : ℚ :=
  (percent : ℚ) / 100 * 0 - 20 * (1 - (percent : ℚ) / 100)

/-- Go two-complement int64 wraparound: reduces an integer into
[-2^63, 2^63), the effect of every overflowing `time.Duration` addition,
subtraction or multiplication. -/
def wrap64 (z : ℤ) : ℤ :=
  (z + 9223372036854775808) % 18446744073709551616 - 9223372036854775808

/-- Number of halvings that bring `n` below 2^53 (the exact-integer range
of a float64 significand); 64 fuel steps cover every int64 magnitude.
This is the binade shift used when converting `n` to float64. -/
def mantShiftAux : ℕ → ℕ → ℕ
  | 0, _ => 0
  | fuel + 1, n => if n < 9007199254740992 then 0 else mantShiftAux fuel (n / 2) + 1

/-- Binade shift of `n` relative to the 53-bit significand range. -/
def mantShift (n : ℕ) : ℕ := mantShiftAux 64 n

/-- Round a nonnegative integer to the nearest float64-representable
integer (53-bit significand, ties to even), as the Go int64-to-float64
conversion does.  Values below 2^53 = 9007199254740992 convert exactly. -/
def roundMantissaNat (n : ℕ) : ℕ :=
  if n < 9007199254740992 then n
  else
    let e := mantShift n
    let base := n / 2 ^ e
    let rem := n % 2 ^ e
    let rounded :=
      if 2 * rem < 2 ^ e then base
      else if 2 ^ e < 2 * rem then base + 1
      else if base % 2 = 0 then base else base + 1
    rounded * 2 ^ e

/-- Go conversion of an int64 value to float64 (sign-symmetric rounding to
the nearest representable integer). -/
def roundFloat64 (z : ℤ) : ℤ :=
  if z < 0 then -(roundMantissaNat z.natAbs : ℤ) else (roundMantissaNat z.natAbs : ℤ)

/-- StreamAnalyzer.calculateJitter (main.go lines 1294–1316) on the ring of
recent request durations (nonnegative int64 nanosecond counts).  Fewer
than 2 entries give 0.  Otherwise every `time.Duration` operation is Go
wrapping int64 arithmetic: the duration sum and the squared-deviation
accumulation wrap through `wrap64` at each step, the two divisions by the
length are the Go truncating integer division (`Int.tdiv`), and the final
`time.Duration(float64(variance) * 0.5)` converts the variance to the
nearest float64 (`roundFloat64`, exact below 2^53), halves it (always
exact in float64), and truncates toward zero — altogether
`Int.tdiv (roundFloat64 variance) 2`, since the rounded value is even
whenever it reaches 2^53. -/
def calculateJitter (requestTimes : List ℕ) : ℤ :=
  if requestTimes.length < 2 then 0
  else
    let sum :=
      requestTimes.foldl (fun acc (rt : ℕ) => wrap64 (acc + (rt : ℤ))) 0
    let avg := Int.tdiv sum (requestTimes.length : ℤ)
    let variance :=
      requestTimes.foldl
        (fun acc (rt : ℕ) =>
          let diff := wrap64 ((rt : ℤ) - avg)
          wrap64 (acc + wrap64 (diff * diff)))
        0
    let variance := Int.tdiv variance (requestTimes.length : ℤ)
    Int.tdiv (roundFloat64 variance) 2

/-- Written from the spec text of claim C8: the population variance of the
recorded durations about their mean, computed in integer nanosecond
arithmetic (the mean and the variance each truncated by the integer
division by the count). -/
def populationVarianceNs (ts : List ℕ) : ℕ :=
  let mean : ℕ := ts.sum / ts.length
  ((ts.map fun (t : ℕ) => ((t : ℤ) - (mean : ℤ)) ^ 2).sum).toNat / ts.length

/-- StreamAnalyzer.calculateConnectionStability (main.go lines 1319–1355),
as a function of the success/failure counters and the ring of recent
request durations (nanoseconds).  Zero total requests return 100.
Otherwise the stability is the success rate × 100, multiplied by 0.8 when
the ring holds more than one duration and their integer-division average
exceeds 2 seconds, and finally clamped to [0,100]. -/
def calculateConnectionStability
    (successfulRequests failedRequests : ℕ) (requestTimes : List ℕ) : ℚ :=
  let totalRequests := successfulRequests + failedRequests
  if totalRequests = 0 then 100
  else
    let successRate : ℚ := (successfulRequests : ℚ) / (totalRequests : ℚ)
    let stability := successRate * 100
    let stability :=
      if 1 < requestTimes.length ∧
          2000000000 < requestTimes.sum / requestTimes.length then
        stability * (8/10)
      else stability
    let stability := if stability < 0 then 0 else stability
    if stability > 100 then 100 else stability

/-- Written from the spec text of claim C7: with at least one completed
request, stability is the success rate × 100, multiplied by 0.8 whenever
the average of the recorded request durations exceeds 2 seconds (with no
condition on how many durations are recorded). -/
def claimConnectionStability
    (successfulRequests failedRequests : ℕ) (requestTimes : List ℕ) : ℚ :=
  let total := successfulRequests + failedRequests
  let base := (successfulRequests : ℚ) / (total : ℚ) * 100
  if 2000000000 < requestTimes.sum / requestTimes.length then base * (8/10)
  else base

/-- One entry of the `streams` array of the ffprobe JSON output
(main.go lines 951–960).  `bitRate`/`sampleRate` are `none` when the JSON
field is the empty string or does not parse as a decimal integer
(`fmt.Sscanf` then leaves the 128000 / 44100 default in place). -/
structure FFProbeStream where
  codecName : String
  codecType : String
  bitRate : Option ℤ
  sampleRate : Option ℤ
deriving Repr, DecidableEq

/-- Outcome of running the external ffprobe command and of parsing its
output: the command fails, or it produces output that does not parse as
the expected JSON, or it produces a parsed `streams` array. -/
inductive ProbeResult where
  | cmdError
  | unparsable
  | parsed (streams : List FFProbeStream)
deriving Repr, DecidableEq

/-- The three metadata fields written by the metadata-extraction task. -/
structure MetaFields where
  codec : String
  bitrate : ℤ
  sampleRate : ℤ
deriving Repr, DecidableEq

/-- StreamAnalyzer.extractMetadata (main.go lines 1102–1167) as a function
of the probe outcome; the task is total (it never surfaces an error, every
branch publishes fields).  Command failure publishes Unknown/0/0; a JSON
parse failure publishes AAC/128000/44100; a parsed output without an audio
stream publishes Unknown/128000/44100; otherwise the first stream with
codec type "audio" is used, with 128000 / 44100 filled in for missing
bitrate / sample-rate fields. -/
def extractMetadata : ProbeResult → MetaFields
  | .cmdError => ⟨"Unknown", 0, 0⟩
  | .unparsable => ⟨"AAC", 128000, 44100⟩
  | .parsed streams =>
    match streams.find? (fun st => st.codecType = "audio") with
    | none => ⟨"Unknown", 128000, 44100⟩
    | some st => ⟨st.codecName, st.bitRate.getD 128000, st.sampleRate.getD 44100⟩

/-- Writing metadata fields into the snapshot (the mutation passed to
`updateStats` at main.go lines 1162–1166 and in the fallback branches). -/
def applyMetadata (m : MetaFields) (s : StreamStats) : StreamStats :=
  { s with codec := m.codec, bitrate := m.bitrate, sampleRate := m.sampleRate }

/-- StreamAnalyzer.updateStats (main.go lines 1358–1363): applies the
caller's mutation under the lock, then recomputes `NetworkQuality` from
the updated snapshot. -/
def updateStats (s : StreamStats) (f : StreamStats → StreamStats) : StreamStats :=
  let s := f s
  { s with networkQuality := assessNetworkQuality s }

/-- Session-level state of a `StreamAnalyzer` (main.go lines 968–985).
Cancellation contexts are modelled by identity: `token` is the context
stored in the `ctx`/`cancel` fields (set once by `NewStreamAnalyzer`, and
by nothing else in the program), `cancelledTokens` records every token on
which `cancel()` has been called, and `launchedSessions` records, one
entry per `StartAnalysis` call, the token handed to that call's four
monitoring goroutines.  Durations and clock readings are as in
`StreamStats`. -/
structure SAState where
  token : ℕ
  cancelledTokens : List ℕ
  launchedSessions : List ℕ
  successfulRequests : ℕ
  failedRequests : ℕ
  requestTimes : List ℕ
  downloadData : ℤ
  bufferUsed : ℤ
  startTime : ℤ
  lastDownloadTime : ℤ
  lastDownloadBytes : ℤ
  lastRequestTime : ℤ
  stats : StreamStats
deriving Repr, DecidableEq

/-- NewStreamAnalyzer (main.go lines 988–999): creates one fresh context
(token 0, not cancelled) and zeroed counters; `bufferSize` is the constant
1 MiB and is kept implicit. -/
def newStreamAnalyzer : SAState :=
  { token := 0, cancelledTokens := [], launchedSessions := [],
    successfulRequests := 0, failedRequests := 0, requestTimes := [],
    downloadData := 0, bufferUsed := 0, startTime := 0,
    lastDownloadTime := 0, lastDownloadBytes := 0, lastRequestTime := 0,
    stats := initialStreamStats }

/-- StreamAnalyzer.StartAnalysis (main.go lines 1002–1037) at clock
reading `now`: resets the counters, the request-time ring, the buffer
accumulator and the download bookkeeping, initializes the snapshot's
session fields (ConnectionStability to 100), and launches the four
monitoring goroutines against the analyzer's current context `sa.token`
(the code passes `sa.ctx` unchanged; no new context is created). -/
def startAnalysis (sa : SAState) (now : ℤ) : SAState :=
  { sa with
    startTime := now, downloadData := 0, bufferUsed := 0,
    lastDownloadTime := now, lastDownloadBytes := 0,
    successfulRequests := 0, failedRequests := 0,
    requestTimes := [], lastRequestTime := 0,
    stats := { sa.stats with
      startTime := now, totalBytes := 0, packetLoss := 0, jitter := 0,
      connectionStability := 100 },
    launchedSessions := sa.launchedSessions ++ [sa.token] }

/-- StreamAnalyzer.StopAnalysis (main.go lines 1040–1042): calls
`sa.cancel()`, cancelling the analyzer's single context. -/
def stopAnalysis (sa : SAState) : SAState :=
  { sa with cancelledTokens := sa.token :: sa.cancelledTokens }

/-- The analyzer state after `StartAnalysis; StopAnalysis; StartAnalysis`
on a fresh analyzer (clock readings 1 and 2 for the two starts). -/
def restartedAnalyzer : SAState :=
  startAnalysis (stopAnalysis (startAnalysis newStreamAnalyzer 1)) 2

/-- Player slot state relevant to `Player.Stop` (main.go lines 366–401):
the process handle (`p.cmd`, carrying an abstract process id), the
`isStopped` flag, and whether `StopAnalysis` has been called on the nested
analyzer. -/
structure PlayerSlot where
  cmd : Option ℕ
  isStopped : Bool
  analysisStopped : Bool
deriving Repr, DecidableEq

/-- Environment outcome during one `Player.Stop` call with a process
present: the SIGTERM signal itself fails, or the process exits within the
2-second grace period, or the deadline elapses and the process is
force-killed. -/
inductive StopOutcome where
  | sigFails
  | exitWithinGrace
  | graceTimeout
deriving Repr, DecidableEq

/-- Player.Stop (main.go lines 366–401) as a function of the slot and the
environment outcome; the second component is `true` when Stop returns a
non-nil error.  With no process present it marks `isStopped`, stops
analysis and returns nil.  Otherwise it marks `isStopped`, stops analysis,
and sends SIGTERM: if the signal fails the error is returned immediately
(the handle is left in place); if the process exits within 2 seconds, or
is force-killed at the deadline, the handle is cleared and nil is
returned. -/
def playerStop (p : PlayerSlot) (env : StopOutcome) : PlayerSlot × Bool :=
  match p.cmd with
  | none => ({ p with isStopped := true, analysisStopped := true }, false)
  | some _ =>
    let p := { p with isStopped := true, analysisStopped := true }
    match env with
    | .sigFails => (p, true)
    | .exitWithinGrace => ({ p with cmd := none }, false)
    | .graceTimeout => ({ p with cmd := none }, false)

/-- Combined state of the playback controller and the operating system's
view of the spawned player processes, for the interleaving model of claim
C9.  `cmd` is the slot `p.cmd`; `live` lists the pids of ffplay processes
that have been spawned and have not yet terminated; `reapers` lists the
pids whose background reaper goroutine (main.go lines 357–362) has not yet
run its final `p.cmd = nil` store; `nextPid` numbers spawned processes. -/
structure RState where
  cmd : Option ℕ
  isStopped : Bool
  live : List ℕ
  reapers : List ℕ
  nextPid : ℕ
deriving Repr, DecidableEq

/-- One atomic step of the playback-control interleaving model.  Start and
Stop hold the player lock for their whole body; the reaper's store and a
spontaneous process exit are their own atomic events. -/
inductive RAction where
  | startOk
  | startSpawnFails
  | stopExitsInGrace
  | stopKillsAtDeadline
  | procExit (pid : ℕ)
  | reap (pid : ℕ)
deriving Repr, DecidableEq

/-- Step function of the interleaving model, following main.go lines
331–364 (Start), 366–401 (Stop) and 357–362 (the reaper goroutine).
`startOk` is Start succeeding: guarded on an empty slot, it spawns a fresh
pid, stores it in the slot and registers its reaper.  `startSpawnFails`
leaves the state unchanged (Start assigns `p.cmd` and resets it to nil on
spawn failure).  The two stop actions require the slot's process to still
be live (otherwise the SIGTERM fails and Stop returns early, changing only
`isStopped`); in both the process ends and the slot is cleared, the
reaper remaining registered.  `procExit pid` is a live process
terminating on its own.  `reap pid` is a registered reaper whose `Wait`
has returned (its process is no longer live) performing its
unconditional `p.cmd = nil` store. -/
def rstep (s : RState) (a : RAction) : RState :=
  match a with
  | .startOk =>
    match s.cmd with
    | some _ => s
    | none =>
      { s with cmd := some s.nextPid, isStopped := false,
               live := s.nextPid :: s.live, reapers := s.nextPid :: s.reapers,
               nextPid := s.nextPid + 1 }
  | .startSpawnFails => s
  | .stopExitsInGrace =>
    match s.cmd with
    | none => { s with isStopped := true }
    | some pid =>
      if pid ∈ s.live then
        { s with isStopped := true, cmd := none, live := s.live.erase pid }
      else { s with isStopped := true }
  | .stopKillsAtDeadline =>
    match s.cmd with
    | none => { s with isStopped := true }
    | some pid =>
      if pid ∈ s.live then
        { s with isStopped := true, cmd := none, live := s.live.erase pid }
      else { s with isStopped := true }
  | .procExit pid =>
    if pid ∈ s.live then { s with live := s.live.erase pid } else s
  | .reap pid =>
    if pid ∈ s.reapers ∧ pid ∉ s.live then
      { s with cmd := none, reapers := s.reapers.erase pid }
    else s

/-- Initial controller state: empty slot, no processes. -/
def rinit : RState :=
  { cmd := none, isStopped := false, live := [], reapers := [], nextPid := 0 }

/-- Run of the interleaving model over a schedule. -/
def rrun (acts : List RAction) : RState :=
  acts.foldl rstep rinit

/-- The schedule of claim C9's counterexample: start process 0, stop it
gracefully, start process 1, then process 0's stale reaper fires and
clears the slot that now holds process 1's handle, and a further Start
spawns process 2 while process 1 is still live. -/
def staleReaperSchedule : List RAction :=
  [.startOk, .stopExitsInGrace, .startOk, .reap 0, .startOk]

/-- The snapshot of the spec's degraded scenario (claim C4):
bitrate 128000, downloadSpeed 6400 (speed ratio 0.4), bufferHealth 20,
connection stability 50, packetLoss 8, jitter 600ms. -/
def veryPoorSnapshot : StreamStats :=
  { initialStreamStats with
    bitrate := 128000
    downloadSpeed := 6400
    bufferHealth := 20
    connectionStability := 50
    packetLoss := 8
    jitter := 600000000 }

/-- Values already inside the int64 range are fixed by the wraparound. -/
theorem wrap64_eq_self {z : ℤ} (h1 : -9223372036854775808 ≤ z)
    (h2 : z < 9223372036854775808) : wrap64 z = z := by
  unfold wrap64; omega

/-- Accumulating a mapped integer value over a fold equals adding the
mapped sum. -/
theorem foldl_add_map_int (f : ℕ → ℤ) (l : List ℕ) (z : ℤ) :
    l.foldl (fun acc x => acc + f x) z = z + (l.map f).sum := by
  induction l generalizing z with
  | nil => simp
  | cons a t ih => simp [ih]; ring

/-- With every duration at most 90ms, the wrapping duration-sum fold never
overflows and equals the exact sum. -/
theorem wrapSumFold_eq (l : List ℕ) (hb : ∀ t ∈ l, t ≤ 90000000) :
    ∀ a : ℤ, 0 ≤ a → a + l.length * 90000000 ≤ 9223372036854775807 →
      l.foldl (fun acc (rt : ℕ) => wrap64 (acc + (rt : ℤ))) a = a + (l.sum : ℤ) := by
  induction l with
  | nil => intro a _ _; simp
  | cons x t ih =>
    intro a ha hbound
    have hx : x ≤ 90000000 := hb x (by simp)
    have hbt : ∀ u ∈ t, u ≤ 90000000 := fun u hu => hb u (by simp [hu])
    simp only [List.foldl_cons, List.sum_cons, List.length_cons] at *
    rw [wrap64_eq_self (by omega) (by omega)]
    rw [ih hbt (a + (x : ℤ)) (by omega) (by push_cast at hbound ⊢; omega)]
    push_cast
    ring

/-- With every duration and the mean at most 90ms, the wrapping
squared-deviation fold never overflows int64 and equals the exact fold. -/
theorem wrapSqFold_eq (m : ℤ) (hm0 : 0 ≤ m) (hm : m ≤ 90000000)
    (l : List ℕ) (hb : ∀ t ∈ l, t ≤ 90000000) :
    ∀ a : ℤ, 0 ≤ a → a + l.length * 8100000000000000 ≤ 9223372036854775807 →
      l.foldl (fun acc (rt : ℕ) =>
          wrap64 (acc + wrap64 (wrap64 ((rt : ℤ) - m) * wrap64 ((rt : ℤ) - m)))) a
        = l.foldl (fun acc (rt : ℕ) => acc + ((rt : ℤ) - m) * ((rt : ℤ) - m)) a := by
  induction l with
  | nil => intro a _ _; rfl
  | cons x t ih =>
    intro a ha hbound
    have hx : x ≤ 90000000 := hb x (by simp)
    have hbt : ∀ u ∈ t, u ≤ 90000000 := fun u hu => hb u (by simp [hu])
    have hln : (0:ℤ) ≤ (t.length : ℤ) := Int.ofNat_nonneg _
    have hd1 : -(90000000:ℤ) ≤ (x:ℤ) - m := by omega
    have hd2 : (x:ℤ) - m ≤ 90000000 := by omega
    have hsq0 : 0 ≤ ((x:ℤ) - m) * ((x:ℤ) - m) := mul_self_nonneg _
    have hsq : ((x:ℤ) - m) * ((x:ℤ) - m) ≤ 8100000000000000 := by nlinarith
    simp only [List.foldl_cons, List.length_cons] at *
    push_cast at hbound
    rw [wrap64_eq_self (z := (x:ℤ) - m) (by omega) (by omega)]
    rw [wrap64_eq_self (z := ((x:ℤ) - m) * ((x:ℤ) - m)) (by linarith) (by linarith)]
    rw [wrap64_eq_self (z := a + ((x:ℤ) - m) * ((x:ℤ) - m)) (by linarith) (by linarith)]
    exact ih hbt (a + ((x:ℤ) - m) * ((x:ℤ) - m)) (by linarith) (by linarith)

/-- The modelled int64-to-float64 conversion is exact below 2^53. -/
theorem roundFloat64_ofNat_small (v : ℕ) (hv : v < 9007199254740992) :
    roundFloat64 (v : ℤ) = (v : ℤ) := by
  unfold roundFloat64
  rw [if_neg (by omega), Int.natAbs_ofNat]
  unfold roundMantissaNat
  rw [if_pos hv]

/-- The clamp-to-[0,100] sequence of `calculateConnectionStability` is the
identity on values already in the range. -/
theorem clamp_of_bounds (x : ℚ) (h0 : 0 ≤ x) (h1 : x ≤ 100) :
    (if (if x < 0 then 0 else x) > 100 then 100 else (if x < 0 then 0 else x)) = x := by
  rw [if_neg (not_lt.mpr h0), if_neg (not_lt.mpr h1)]

/-- C1: evaluation of the code at the failing call sequence
`StartAnalysis; StopAnalysis; StartAnalysis`.  The second `StartAnalysis`
does reset the counters, the request-time ring, the accumulators and the
session timestamps, but both sessions were launched against the one token
created by `NewStreamAnalyzer` (token 0), and at the time of the second
launch that token has already been cancelled by `StopAnalysis` — the
claimed fresh, uncancelled per-session token does not exist. -/
theorem startAnalysis_after_stop_reuses_cancelled_token :
    restartedAnalyzer.launchedSessions = [0, 0] ∧
    restartedAnalyzer.token ∈ restartedAnalyzer.cancelledTokens ∧
    restartedAnalyzer.successfulRequests = 0 ∧
    restartedAnalyzer.failedRequests = 0 ∧
    restartedAnalyzer.requestTimes = [] ∧
    restartedAnalyzer.bufferUsed = 0 ∧
    restartedAnalyzer.downloadData = 0 ∧
    restartedAnalyzer.startTime = 2 ∧
    restartedAnalyzer.stats.connectionStability = 100 := by decide

/-- C2 counterexample: with a process present (handle 7) and the
graceful-termination signal itself failing, `Stop()` returns with the
process-handle slot still occupied — the claim that the handle is always
cleared before returning is false. -/
theorem stop_signal_failure_leaves_handle :
    (playerStop { cmd := some 7, isStopped := false, analysisStopped := false }
        .sigFails).1.cmd ≠ none := by
  decide

/-- C2 amended: `Stop()` clears the process handle in every case — no
process running, graceful exit within the 2-second grace period, forced
kill at the deadline — except when sending the graceful-termination signal
itself fails, in which case it returns the signal error and leaves the
handle unchanged; it always sets `isStopped` and stops the analysis. -/
theorem stop_clears_handle_iff_signal_ok (p : PlayerSlot) (env : StopOutcome) :
    ((playerStop p env).1.cmd = none ↔ (p.cmd = none ∨ env ≠ .sigFails)) ∧
    (playerStop p env).1.isStopped = true ∧
    (playerStop p env).1.analysisStopped = true ∧
    ((playerStop p env).2 = true ↔ (p.cmd ≠ none ∧ env = .sigFails)) ∧
    (playerStop p .sigFails).1.cmd = p.cmd := by
  obtain ⟨c, st, an⟩ := p
  cases c <;> cases env <;> simp [playerStop]

/-- C3 counterexample: when the external probe command itself fails, the
published snapshot has bitrate 0 and sample rate 0 (codec "Unknown"), not
the claimed bitrate 128000 and sample rate 44100. -/
theorem probe_failure_publishes_zero_defaults :
    (updateStats initialStreamStats (applyMetadata (extractMetadata .cmdError))).bitrate = 0 ∧
    (updateStats initialStreamStats (applyMetadata (extractMetadata .cmdError))).sampleRate = 0 ∧
    (updateStats initialStreamStats (applyMetadata (extractMetadata .cmdError))).bitrate ≠ 128000 ∧
    (updateStats initialStreamStats (applyMetadata (extractMetadata .cmdError))).sampleRate ≠ 44100 ∧
    (updateStats initialStreamStats (applyMetadata (extractMetadata .cmdError))).codec = "Unknown" := by
  decide

/-- C3 amended: the metadata task is total (never surfaces an error) and
falls back to fixed values, but the fallbacks differ by failure mode:
probe-command failure gives Unknown/0/0; JSON parse failure gives
AAC/128000/44100; a parsed output with no audio entry gives
Unknown/128000/44100; and a found audio entry supplies its own codec name
with 128000/44100 only filling missing fields. -/
theorem extractMetadata_fallback_cases (streams : List FFProbeStream) :
    extractMetadata .cmdError = ⟨"Unknown", 0, 0⟩ ∧
    extractMetadata .unparsable = ⟨"AAC", 128000, 44100⟩ ∧
    (streams.find? (fun st => st.codecType = "audio") = none →
      extractMetadata (.parsed streams) = ⟨"Unknown", 128000, 44100⟩) ∧
    (∀ st, streams.find? (fun st => st.codecType = "audio") = some st →
      extractMetadata (.parsed streams) =
        ⟨st.codecName, st.bitRate.getD 128000, st.sampleRate.getD 44100⟩) := by
  refine ⟨rfl, rfl, ?_, ?_⟩
  · intro h; simp [extractMetadata, h]
  · intro st h; simp [extractMetadata, h]

/-- C3 witness: the no-audio-entry branch at the empty streams list. -/
theorem extractMetadata_fallback_cases_witness :
    extractMetadata (.parsed []) = ⟨"Unknown", 128000, 44100⟩ :=
  (extractMetadata_fallback_cases []).2.2.1 rfl

/-- C4 counterexample: on the degraded scenario the quality score is not
24.5 (it is 25.5: the 600ms jitter is below the 1s threshold and so
contributes 1 point, not 0). -/
theorem very_poor_scenario_score_not_24_5 :
    assessScore veryPoorSnapshot ≠ 49/2 := by
  have h : assessScore veryPoorSnapshot = 51/2 := by
    norm_num [assessScore, veryPoorSnapshot, initialStreamStats]
  rw [h]; norm_num

/-- C4 amended: on the degraded scenario the quality score equals
5+5+12.5+2+1 = 25.5 and the resulting label is "Very Poor". -/
theorem very_poor_scenario_score_25_5 :
    assessScore veryPoorSnapshot = 51/2 ∧
    assessNetworkQuality veryPoorSnapshot = "Very Poor" := by
  constructor
  · norm_num [assessScore, veryPoorSnapshot, initialStreamStats]
  · norm_num [assessNetworkQuality, assessScore, veryPoorSnapshot, initialStreamStats]

/-- C5: for every snapshot the quality label computed by
`assessNetworkQuality` agrees with the spec's description — the weighted
total of the five factors mapped through the thresholds
90/75/60/40, with "Unknown" whenever bitrate or download speed is zero —
and the code's score equals the spec's factor sum. -/
theorem assessNetworkQuality_matches_spec_score (s : StreamStats) :
    assessNetworkQuality s = specQualityLabel s ∧ assessScore s = specScore s := by
  have h : assessScore s = specScore s := by
    simp only [assessScore, specScore, specSpeedFactor, specBufferFactor,
      specPacketLossFactor, specJitterFactor, zero_add]
  refine ⟨?_, h⟩
  unfold assessNetworkQuality specQualityLabel
  rw [h]

/-- C6: for every percent in [0,100] the volume filter value equals
−20 × (1 − percent/100) exactly, and the formula's first additive term
`percent/100*0` is always zero. -/
theorem ffplayVolDb_formula (p : ℤ) (h0 : 0 ≤ p) (h1 : p ≤ 100) :
    ffplayVolDb p = -20 * (1 - (p : ℚ) / 100) ∧ (p : ℚ) / 100 * 0 = 0 := by
  constructor
  · unfold ffplayVolDb; ring
  · ring

/-- C6 witness: at percent 70 the filter value is −6 dB. -/
theorem ffplayVolDb_formula_witness :
    ffplayVolDb 70 = -20 * (1 - ((70 : ℤ) : ℚ) / 100) ∧ ffplayVolDb 70 = -6 := by
  have h := ffplayVolDb_formula 70 (by norm_num) (by norm_num)
  exact ⟨h.1, by rw [h.1]; norm_num⟩

/-- C7 counterexample: one successful probe (no failures) whose single
recorded duration is 3 seconds.  The code returns 100 (the 0.8 penalty is
skipped because only one duration is recorded), while the claim's formula
— success rate × 100, × 0.8 whenever the average recorded duration
exceeds 2 seconds — gives 80. -/
theorem stability_single_slow_request_cex :
    calculateConnectionStability 1 0 [3000000000] = 100 ∧
    claimConnectionStability 1 0 [3000000000] = 80 ∧
    calculateConnectionStability 1 0 [3000000000] ≠
      claimConnectionStability 1 0 [3000000000] := by
  have hA : calculateConnectionStability 1 0 [3000000000] = 100 := by
    norm_num [calculateConnectionStability]
  have hB : claimConnectionStability 1 0 [3000000000] = 80 := by
    norm_num [claimConnectionStability]
  exact ⟨hA, hB, by rw [hA, hB]; norm_num⟩

/-- C7 amended: with no completed requests the stability is 100; with at
least one, it equals success rate × 100, multiplied by 0.8 only when more
than one request duration is recorded and the (integer) average of the
recorded durations exceeds 2 seconds; and in all cases the result lies in
[0,100] (the final clamp is a no-op). -/
theorem calculateConnectionStability_characterization
    (succ failed : ℕ) (ts : List ℕ) :
    calculateConnectionStability succ failed ts =
      (if succ + failed = 0 then 100
       else (succ : ℚ) / ((succ + failed : ℕ) : ℚ) * 100 *
         (if 1 < ts.length ∧ 2000000000 < ts.sum / ts.length then 8/10 else 1)) ∧
    0 ≤ calculateConnectionStability succ failed ts ∧
    calculateConnectionStability succ failed ts ≤ 100 := by
  by_cases h0 : succ + failed = 0
  · refine ⟨?_, ?_, ?_⟩ <;> simp [calculateConnectionStability, h0]
  · have hpos : (0:ℚ) < ((succ + failed : ℕ) : ℚ) := by
      exact_mod_cast Nat.pos_of_ne_zero h0
    have hb0 : 0 ≤ (succ : ℚ) / ((succ + failed : ℕ) : ℚ) * 100 := by positivity
    have hb1 : (succ : ℚ) / ((succ + failed : ℕ) : ℚ) * 100 ≤ 100 := by
      have hr1 : (succ : ℚ) / ((succ + failed : ℕ) : ℚ) ≤ 1 := by
        rw [div_le_one hpos]
        exact_mod_cast Nat.le_add_right succ failed
      nlinarith
    have key : calculateConnectionStability succ failed ts
        = if 1 < ts.length ∧ 2000000000 < ts.sum / ts.length
          then (succ : ℚ) / ((succ + failed : ℕ) : ℚ) * 100 * (8/10)
          else (succ : ℚ) / ((succ + failed : ℕ) : ℚ) * 100 := by
      simp only [calculateConnectionStability, if_neg h0]
      by_cases hc : 1 < ts.length ∧ 2000000000 < ts.sum / ts.length
      · rw [if_pos hc, clamp_of_bounds _ (by positivity) (by nlinarith)]
      · rw [if_neg hc, clamp_of_bounds _ hb0 hb1]
    refine ⟨?_, ?_, ?_⟩
    · rw [key, if_neg h0]
      by_cases hc : 1 < ts.length ∧ 2000000000 < ts.sum / ts.length
      · rw [if_pos hc, if_pos hc]
      · rw [if_neg hc, if_neg hc, mul_one]
    · rw [key]
      by_cases hc : 1 < ts.length ∧ 2000000000 < ts.sum / ts.length
      · rw [if_pos hc]; positivity
      · rw [if_neg hc]; exact hb0
    · rw [key]
      by_cases hc : 1 < ts.length ∧ 2000000000 < ts.sum / ts.length
      · rw [if_pos hc]; nlinarith
      · rw [if_neg hc]; exact hb1

/-- C8 counterexample: two failing rings.  On [0ns, 1ns, 4ns] the
integer-arithmetic population variance is 3, so 0.5 × variance is 1.5ns,
but the code returns 1ns (the conversion back to a whole-nanosecond
duration truncates).  On [0s, 8s] the squared deviations (±4s each,
1.6e19 ns²) overflow int64 and wrap, so the code returns a negative
jitter while 0.5 × the population variance is a huge positive value.
Either way jitter does not equal 0.5 × the population variance. -/
theorem jitter_truncation_cex :
    calculateJitter [0, 1, 4] = 1 ∧
    populationVarianceNs [0, 1, 4] = 3 ∧
    ((calculateJitter [0, 1, 4] : ℚ) ≠ 1/2 * (populationVarianceNs [0, 1, 4] : ℚ)) ∧
    calculateJitter [0, 8000000000] < 0 ∧
    populationVarianceNs [0, 8000000000] = 16000000000000000000 := by
  have h1 : calculateJitter [0, 1, 4] = 1 := by decide
  have h2 : populationVarianceNs [0, 1, 4] = 3 := by decide
  exact ⟨h1, h2, by rw [h1, h2]; norm_num, by decide, by decide⟩

/-- C8 amended: with fewer than 2 recorded durations the jitter is exactly
zero.  Otherwise the computation runs in wrapping int64 nanosecond
arithmetic with a final float64 conversion, and whenever the ring is small
enough for that arithmetic to be exact — at most 10 recorded durations
(the ring capacity) of at most 90ms each, so that no int64 product wraps
and the variance stays below 2^53 — the jitter equals the
integer-arithmetic population variance of the durations about their
truncated mean, halved with truncation to a whole nanosecond count. -/
theorem calculateJitter_eq_half_int_variance (ts : List ℕ)
    (hlen : ts.length ≤ 10) (hb : ∀ t ∈ ts, t ≤ 90000000) :
    calculateJitter ts =
      ((if ts.length < 2 then 0 else populationVarianceNs ts / 2 : ℕ) : ℤ) := by
  by_cases h : ts.length < 2
  · simp [calculateJitter, h]
  · have hlenZ : (ts.length : ℤ) ≤ 10 := by exact_mod_cast hlen
    have hsum_le : ts.sum ≤ ts.length * 90000000 := by
      simpa [smul_eq_mul] using List.sum_le_card_nsmul ts 90000000 hb
    have hmean_le : ts.sum / ts.length ≤ 90000000 := Nat.div_le_of_le_mul hsum_le
    have hmZ : ((ts.sum / ts.length : ℕ) : ℤ) ≤ 90000000 := by exact_mod_cast hmean_le
    have e1 : ts.foldl (fun acc (rt : ℕ) => wrap64 (acc + (rt : ℤ))) 0
        = ((ts.sum : ℕ) : ℤ) := by
      have hB : (0:ℤ) + ts.length * 90000000 ≤ 9223372036854775807 := by linarith
      simpa using wrapSumFold_eq ts hb 0 le_rfl hB
    have e2 : Int.tdiv ((ts.sum : ℕ) : ℤ) ((ts.length : ℕ) : ℤ)
        = ((ts.sum / ts.length : ℕ) : ℤ) := (Int.ofNat_tdiv _ _).symm
    have hB2 : (0:ℤ) + ts.length * 8100000000000000 ≤ 9223372036854775807 := by linarith
    have e3 := wrapSqFold_eq ((ts.sum / ts.length : ℕ) : ℤ) (Int.ofNat_nonneg _) hmZ
      ts hb 0 le_rfl hB2
    simp only [calculateJitter]
    rw [if_neg h, if_neg h, e1, e2, e3, foldl_add_map_int, zero_add]
    simp only [← pow_two]
    have hS0 : (0:ℤ) ≤ ((ts.map fun (t : ℕ) =>
        ((t : ℤ) - ((ts.sum / ts.length : ℕ) : ℤ)) ^ 2).sum) := by
      refine List.sum_nonneg ?_
      intro x hx
      obtain ⟨y, _, rfl⟩ := List.mem_map.mp hx
      exact sq_nonneg _
    have hS_le : ((ts.map fun (t : ℕ) =>
        ((t : ℤ) - ((ts.sum / ts.length : ℕ) : ℤ)) ^ 2).sum)
        ≤ (ts.length : ℤ) * 8100000000000000 := by
      have := List.sum_le_card_nsmul
        (ts.map fun (t : ℕ) => ((t : ℤ) - ((ts.sum / ts.length : ℕ) : ℤ)) ^ 2)
        8100000000000000 ?_
      · simpa [nsmul_eq_mul] using this
      · intro x hx
        obtain ⟨y, hy, rfl⟩ := List.mem_map.mp hx
        have hyB : (y : ℤ) ≤ 90000000 := by exact_mod_cast hb y hy
        have hy0 : (0:ℤ) ≤ (y : ℤ) := Int.ofNat_nonneg _
        have hm0 : (0:ℤ) ≤ ((ts.sum / ts.length : ℕ) : ℤ) := Int.ofNat_nonneg _
        nlinarith
    have hvNat : ((ts.map fun (t : ℕ) =>
        ((t : ℤ) - ((ts.sum / ts.length : ℕ) : ℤ)) ^ 2).sum).toNat
        ≤ ts.length * 8100000000000000 := by
      rw [Int.toNat_le]
      simpa using hS_le
    have hv_le : ((ts.map fun (t : ℕ) =>
        ((t : ℤ) - ((ts.sum / ts.length : ℕ) : ℤ)) ^ 2).sum).toNat / ts.length
        ≤ 8100000000000000 := Nat.div_le_of_le_mul hvNat
    rw [← Int.toNat_of_nonneg hS0, ← Int.ofNat_tdiv,
      roundFloat64_ofNat_small _ (by omega),
      show (2:ℤ) = ((2:ℕ) : ℤ) by norm_num, ← Int.ofNat_tdiv]
    simp only [populationVarianceNs]

/-- C8 witness: the bounded case at the concrete ring [0ns, 3ns], where
the variance is 2 and the jitter 1. -/
theorem calculateJitter_eq_half_int_variance_witness :
    calculateJitter [0, 3] = ((populationVarianceNs [0, 3] / 2 : ℕ) : ℤ) ∧
    calculateJitter [0, 3] = 1 := by
  have h := calculateJitter_eq_half_int_variance [0, 3] (by decide) (by decide)
  exact ⟨by simpa using h, by decide⟩

/-- C9: evaluation of the interleaving model at the stale-reaper schedule:
after start / graceful stop / start / stale reaper store / start, two
spawned player processes (pids 1 and 2) are live at the same time, because
process 0's reaper unconditionally cleared the slot holding process 1's
handle and let the third Start spawn process 2. -/
theorem stale_reaper_allows_two_live_processes :
    (rrun staleReaperSchedule).live = [2, 1] ∧
    (rrun staleReaperSchedule).live.length = 2 ∧
    (rrun staleReaperSchedule).cmd = some 2 := by decide

/-- C10: with both request counters zero the connection-stability
computation returns exactly 100 whatever the duration ring holds, and
`StartAnalysis` initializes the snapshot's ConnectionStability field to
100 from any prior state. -/
theorem fresh_session_reports_full_stability
    (ts : List ℕ) (sa : SAState) (now : ℤ) :
    calculateConnectionStability 0 0 ts = 100 ∧
    (startAnalysis sa now).stats.connectionStability = 100 :=
  ⟨by simp [calculateConnectionStability], rfl⟩

end RadioSpec
